import Mathlib

/-!
# Verification of the AccuChek glucose-meter retrieval scripts

Shallow embedding of the protocol/decoding core of `src/gm_listener.py` and
`src/ble_listener.py`:

* the SFLOAT (IEEE-11073 16-bit short float) decoding logic that is inlined in
  both `decode_glucose_measurement` functions;
* `GlucoseMeterListener.decode_glucose_measurement` (gm_listener.py) and
  `BLEListener.decode_glucose_measurement` (ble_listener.py);
* `GlucoseMeterListener.decode_racp_response` (gm_listener.py) and
  `BLEListener.decode_racp_response` (ble_listener.py);
* the notification handler and the retrieval flow of
  `GlucoseMeterListener.connect_and_retrieve_data` (subscription phase,
  RACP command writes, and the 30-second wait loop), and the subscription /
  request logic of `BLEListener.connect_and_listen`.

Bytes are modelled as natural numbers (each byte value is below 256; the
decoders only ever combine them with `&&&`, `>>>` and little-endian sums, so
no modular arithmetic is needed).  A `bytearray` is a `List Nat`.

Each decoder exists in two forms:

* a total form (`…_decode_…`) where a byte access out of range yields the
  padding value 0, mirroring each in-bounds Python access (the Python code
  guards every access by an explicit length check, so no out-of-range access
  ever happens; this is proved below); and
* a `Checked` form where **every** byte access is `Option`-instrumented
  (`none` models a raised `IndexError`, i.e. the path on which the Python
  `try/except` wrapper would have had to catch an exception).  Proving that
  the checked form always returns `some` of the total form's result shows the
  decoders never raise, settling the totality claim.
-/

namespace Accuchek

/-- Equality of decoder results is decidable (used to evaluate the decoders
on concrete buffers). -/
instance {ε α : Type} [DecidableEq ε] [DecidableEq α] : DecidableEq (Except ε α) :=
  fun a b =>
    match a, b with
    | .ok x, .ok y => decidable_of_iff (x = y) (by simp)
    | .ok _, .error _ => .isFalse (by simp)
    | .error _, .ok _ => .isFalse (by simp)
    | .error e, .error f => decidable_of_iff (e = f) (by simp)

/-- Total byte access: `data[i]`, with 0 for an out-of-range index.  Used only
at indices the source guards by a length check. -/
def nthByte (data : List Nat) (i : Nat) : Nat :=
  data.getD i 0

/-- Little-endian 16-bit read `int.from_bytes(data[i:i+2], 'little')`
(used by the sources only at indices guarded by length checks). -/
def u16leT (data : List Nat) (i : Nat) : Nat :=
  nthByte data i + 256 * nthByte data (i + 1)

/-- Signed reinterpretation of a 16-bit little-endian read:
`int.from_bytes(..., 'little', signed=True)`. -/
def s16ofU16 (v : Nat) : Int :=
  if 0x8000 ≤ v then (v : Int) - 0x10000 else (v : Int)

/-- Checked byte access: `none` models a Python `IndexError` on `data[i]`. -/
def byteAt (data : List Nat) (i : Nat) : Option Nat :=
  data.get? i

/-- Checked little-endian 16-bit read. -/
def u16le (data : List Nat) (i : Nat) : Option Nat := do
  let lo ← byteAt data i
  let hi ← byteAt data (i + 1)
  pure (lo + 256 * hi)

/-! ## SFLOAT decoding

Both Python files inline the same core computation (4-bit two's-complement
exponent in bits 15–12, 12-bit two's-complement mantissa in bits 11–0).
`gm_listener.py` first checks the five reserved raw values; `ble_listener.py`
has no reserved-value handling at all. The Python code materializes
`mantissa * (10 ** exponent)`; the value is represented here by the
(mantissa, exponent) pair. -/

/-- Result of decoding one SFLOAT-encoded concentration.  `Number m e`
stands for the Python value `m * (10 ** e)`; the other constructors are the
sentinel strings `"NaN"`, `"NRes"`, `"+INFINITY"`, `"-INFINITY"`,
`"Reserved"` that `gm_listener.py` produces for reserved raw values. -/
inductive SfloatValue where
  | Number (mantissa exponent : Int)
  | NaN
  | NRes
  | PlusInfinity
  | MinusInfinity
  | Reserved
deriving DecidableEq

/-- The sign-extension core shared verbatim by both Python files:
`exponent = (raw >> 12) & 0x0F`, made negative by `-(0x10 - e)` when `e ≥ 8`;
`mantissa = raw & 0x0FFF`, made negative by `-(0x1000 - m)` when
`m ≥ 0x0800`. -/
def sfloat_core (raw : Nat) : SfloatValue :=
  let e := (raw >>> 12) &&& 0x0F
  let exponent : Int := if 0x08 ≤ e then (e : Int) - 0x10 else (e : Int)
  let m := raw &&& 0x0FFF
  let mantissa : Int := if 0x0800 ≤ m then (m : Int) - 0x1000 else (m : Int)
  .Number mantissa exponent

/-- SFLOAT decoding as in `gm_listener.py` (lines 149–168): the five reserved
raw values first, then the general sign-extension decode. -/
def gm_decode_sfloat (raw : Nat) : SfloatValue :=
  if raw = 0x07FF then .NaN
  else if raw = 0x0800 then .NRes
  else if raw = 0x07FE then .PlusInfinity
  else if raw = 0x0802 then .MinusInfinity
  else if raw = 0x0801 then .Reserved
  else sfloat_core raw

/-- SFLOAT decoding as in `ble_listener.py` (lines 227–237): the general
decode only — no reserved-value handling exists in that file. -/
def ble_decode_sfloat (raw : Nat) : SfloatValue :=
  sfloat_core raw

/-! ## Glucose Measurement decoding -/

/-- The `units` string: `"mmol/L"` when flags bit 2 is set, else `"mg/dL"`. -/
inductive GlucoseUnit where
  | mgdl
  | mmolL
deriving DecidableEq

/-- The decode-failure report.  Both Python decoders return an error value
(`{"error": "Data too short", ...}` resp. a `"Data too short..."` string) for
a buffer below the fixed-prefix length; that is their only error case. -/
inductive DecodeError where
  | tooShort
deriving DecidableEq

/-- The dictionary `decode_glucose_measurement` (gm_listener.py) returns on
success.  The Python `timestamp` string is the formatting of the six
`year … second` fields (`f"{year}-{month:02d}-{day:02d} …"`); `raw_hex` is
presentation only and omitted. -/
structure GlucoseMeasurement where
  sequence_number : Nat
  year : Nat
  month : Nat
  day : Nat
  hour : Nat
  minute : Nat
  second : Nat
  glucose_value : Option SfloatValue
  units : GlucoseUnit
  sample_type : Option Nat
  sample_location : Option Nat
  time_offset_minutes : Option Int
  status : Option Nat
  context_follows : Bool
deriving DecidableEq

/-- Cursor logic shared by both decoders: the time-offset field is consumed
exactly when flags bit 0 is set *and* at least 2 bytes remain after the
10-byte fixed prefix (`if time_offset_present and len(data) >= offset + 2`). -/
def hasTimeOffsetField (data : List Nat) : Bool :=
  (nthByte data 0 &&& 0x01 != 0) && decide (10 + 2 ≤ data.length)

/-- Cursor position after the optional time-offset field. -/
def offsetAfterTime (data : List Nat) : Nat :=
  if hasTimeOffsetField data then 12 else 10

/-- gm_listener.py consumes the 3-byte concentration block exactly when at
least 3 bytes remain at the cursor (`if len(data) >= offset + 3`) — the flags
byte is *not* consulted for this field in that file. -/
def gm_hasConcField (data : List Nat) : Bool :=
  decide (offsetAfterTime data + 3 ≤ data.length)

/-- Cursor position after the concentration block in gm_listener.py. -/
def gm_offsetAfterConc (data : List Nat) : Nat :=
  if gm_hasConcField data then offsetAfterTime data + 3 else offsetAfterTime data

/-- gm_listener.py decodes the status field exactly when flags bit 3 is set
and 2 bytes remain at the cursor. -/
def gm_hasStatusField (data : List Nat) : Bool :=
  (nthByte data 0 &&& 0x08 != 0) && decide (gm_offsetAfterConc data + 2 ≤ data.length)

/-- `GlucoseMeterListener.decode_glucose_measurement` (gm_listener.py,
lines 108–197), with in-bounds byte access made total.  Field presence
follows the source exactly: time offset requires flags bit 0 and room;
concentration requires only room (3 bytes past the cursor); status requires
flags bit 3 and room.  Trailing bytes are ignored. -/
def gm_decode_glucose_measurement (data : List Nat) :
    Except DecodeError GlucoseMeasurement :=
  if data.length < 10 then .error .tooShort
  else
    let flags := nthByte data 0
    let units : GlucoseUnit := if flags &&& 0x04 != 0 then .mmolL else .mgdl
    let context_info_follows := flags &&& 0x10 != 0
    let seq_num := u16leT data 1
    let year := u16leT data 3
    let time_offset : Option Int :=
      if hasTimeOffsetField data then some (s16ofU16 (u16leT data 10)) else none
    let conc : Option SfloatValue × Option Nat × Option Nat :=
      if gm_hasConcField data then
        let glucose_raw := u16leT data (offsetAfterTime data)
        let tsl := nthByte data (offsetAfterTime data + 2)
        (some (gm_decode_sfloat glucose_raw),
         some ((tsl >>> 4) &&& 0x0F), some (tsl &&& 0x0F))
      else (none, none, none)
    let status : Option Nat :=
      if gm_hasStatusField data then some (u16leT data (gm_offsetAfterConc data))
      else none
    .ok
      { sequence_number := seq_num
        year := year
        month := nthByte data 5
        day := nthByte data 6
        hour := nthByte data 7
        minute := nthByte data 8
        second := nthByte data 9
        glucose_value := conc.1
        units := units
        sample_type := conc.2.1
        sample_location := conc.2.2
        time_offset_minutes := time_offset
        status := status
        context_follows := context_info_follows }

/-- `BLEListener.decode_glucose_measurement` (ble_listener.py) consumes the
concentration block exactly when flags bit 1 is set *and* 3 bytes remain
(`if concentration_and_type_present and len(data) >= offset + 3`). -/
def ble_hasConcField (data : List Nat) : Bool :=
  (nthByte data 0 &&& 0x02 != 0) && decide (offsetAfterTime data + 3 ≤ data.length)

/-- Cursor position after the concentration block in ble_listener.py. -/
def ble_offsetAfterConc (data : List Nat) : Nat :=
  if ble_hasConcField data then offsetAfterTime data + 3 else offsetAfterTime data

/-- ble_listener.py decodes the status field exactly when flags bit 3 is set
and 2 bytes remain at the cursor. -/
def ble_hasStatusField (data : List Nat) : Bool :=
  (nthByte data 0 &&& 0x08 != 0) && decide (ble_offsetAfterConc data + 2 ≤ data.length)

/-- `BLEListener.decode_glucose_measurement` (ble_listener.py, lines
184–254).  The Python function renders its findings as text lines; this
embedding records the decoded values those lines carry.  It differs from the
gm_listener.py decoder in gating the concentration block on flags bit 1 and
in using the sentinel-free SFLOAT decode. -/
def ble_decode_glucose_measurement (data : List Nat) :
    Except DecodeError GlucoseMeasurement :=
  if data.length < 10 then .error .tooShort
  else
    let flags := nthByte data 0
    let units : GlucoseUnit := if flags &&& 0x04 != 0 then .mmolL else .mgdl
    let context_info_follows := flags &&& 0x10 != 0
    let seq_num := u16leT data 1
    let year := u16leT data 3
    let time_offset : Option Int :=
      if hasTimeOffsetField data then some (s16ofU16 (u16leT data 10)) else none
    let conc : Option SfloatValue × Option Nat × Option Nat :=
      if ble_hasConcField data then
        let glucose_raw := u16leT data (offsetAfterTime data)
        let tsl := nthByte data (offsetAfterTime data + 2)
        (some (ble_decode_sfloat glucose_raw),
         some ((tsl >>> 4) &&& 0x0F), some (tsl &&& 0x0F))
      else (none, none, none)
    let status : Option Nat :=
      if ble_hasStatusField data then some (u16leT data (ble_offsetAfterConc data))
      else none
    .ok
      { sequence_number := seq_num
        year := year
        month := nthByte data 5
        day := nthByte data 6
        hour := nthByte data 7
        minute := nthByte data 8
        second := nthByte data 9
        glucose_value := conc.1
        units := units
        sample_type := conc.2.1
        sample_location := conc.2.2
        time_offset_minutes := time_offset
        status := status
        context_follows := context_info_follows }

/-! ## RACP response decoding -/

/-- The `response_text` values of `decode_racp_response` (gm_listener.py):
the named strings of the `response_codes` dictionary for bytes 1–9, and the
dictionary default `"Unknown"` for any other byte (the raw byte itself is
carried alongside in the `response_code` field). -/
inductive RacpResponseText where
  | success
  | opCodeNotSupported
  | invalidOperator
  | operatorNotSupported
  | invalidOperand
  | noRecordsFound
  | abortUnsuccessful
  | procedureNotCompleted
  | operandNotSupported
  | unknown
deriving DecidableEq

/-- `response_codes.get(response_code, "Unknown")` from gm_listener.py. -/
def response_text_of (code : Nat) : RacpResponseText :=
  if code = 1 then .success
  else if code = 2 then .opCodeNotSupported
  else if code = 3 then .invalidOperator
  else if code = 4 then .operatorNotSupported
  else if code = 5 then .invalidOperand
  else if code = 6 then .noRecordsFound
  else if code = 7 then .abortUnsuccessful
  else if code = 8 then .procedureNotCompleted
  else if code = 9 then .operandNotSupported
  else .unknown

/-- The dictionary `decode_racp_response` (gm_listener.py) returns on
success: `opcode` and `operator` always (the branch `data[1] if len(data) > 1
else None` is reached only with length ≥ 2, so the operator byte is always
read); the opcode-6 fields or the opcode-5 count only when present.
`raw_hex` is presentation only and omitted. -/
structure RacpDecoded where
  opcode : Nat
  operator : Nat
  request_opcode : Option Nat
  response_code : Option Nat
  response_text : Option RacpResponseText
  num_records : Option Nat
deriving DecidableEq

/-- `GlucoseMeterListener.decode_racp_response` (gm_listener.py, lines
199–245): length < 2 is the only failure; opcode 6 with ≥ 4 bytes adds the
requested opcode, the raw result byte and its text; opcode 5 with ≥ 4 bytes
adds the little-endian count at offset 2; every other buffer of length ≥ 2
returns the bare `{opcode, operator}` dictionary. -/
def gm_decode_racp_response (data : List Nat) : Except DecodeError RacpDecoded :=
  if data.length < 2 then .error .tooShort
  else
    let opcode := nthByte data 0
    let operator := nthByte data 1
    let base : RacpDecoded :=
      { opcode := opcode, operator := operator, request_opcode := none
        response_code := none, response_text := none, num_records := none }
    if opcode = 6 then
      if 4 ≤ data.length then
        .ok { base with
                request_opcode := some (nthByte data 2)
                response_code := some (nthByte data 3)
                response_text := some (response_text_of (nthByte data 3)) }
      else .ok base
    else if opcode = 5 then
      if 4 ≤ data.length then .ok { base with num_records := some (u16leT data 2) }
      else .ok base
    else .ok base

/-- Opcode rendering of `decode_racp_response` (ble_listener.py):
`op_codes.get(op_code, f"Unknown ({op_code})")` — the unknown case carries
the raw byte. -/
inductive BleOpCodeName where
  | reportStoredRecords
  | deleteStoredRecords
  | abortOperation
  | reportNumberOfStoredRecords
  | numberOfStoredRecordsResponse
  | responseCode
  | unknownOp (code : Nat)
deriving DecidableEq

/-- The `op_codes` dictionary lookup of ble_listener.py. -/
def ble_op_code_name (code : Nat) : BleOpCodeName :=
  if code = 1 then .reportStoredRecords
  else if code = 2 then .deleteStoredRecords
  else if code = 3 then .abortOperation
  else if code = 4 then .reportNumberOfStoredRecords
  else if code = 5 then .numberOfStoredRecordsResponse
  else if code = 6 then .responseCode
  else .unknownOp code

/-- Result-code rendering of ble_listener.py:
`response_codes.get(value, f"Unknown ({value})")`. -/
inductive BleResponseCodeName where
  | success
  | opCodeNotSupported
  | invalidOperator
  | operatorNotSupported
  | invalidOperand
  | noRecordsFound
  | abortUnsuccessful
  | procedureNotCompleted
  | operandNotSupported
  | unknownCode (code : Nat)
deriving DecidableEq

/-- The `response_codes` dictionary lookup of ble_listener.py. -/
def ble_response_code_name (code : Nat) : BleResponseCodeName :=
  if code = 1 then .success
  else if code = 2 then .opCodeNotSupported
  else if code = 3 then .invalidOperator
  else if code = 4 then .operatorNotSupported
  else if code = 5 then .invalidOperand
  else if code = 6 then .noRecordsFound
  else if code = 7 then .abortUnsuccessful
  else if code = 8 then .procedureNotCompleted
  else if code = 9 then .operandNotSupported
  else .unknownCode code

/-- The information content of the text `decode_racp_response`
(ble_listener.py) renders. -/
structure BleRacpDecoded where
  op_code : BleOpCodeName
  operator : Nat
  request_op_code : Option BleOpCodeName
  response : Option BleResponseCodeName
  num_records : Option Nat
deriving DecidableEq

/-- `BLEListener.decode_racp_response` (ble_listener.py, lines 256–305).
Same shape as the gm_listener.py decoder; opcode and the requested opcode
are rendered through the `op_codes` dictionary (unknown bytes surfaced as
`Unknown (code)`), and the `data[1] if len(data) > 1 else 0` operator read
is reached only with length ≥ 2. -/
def ble_decode_racp_response (data : List Nat) : Except DecodeError BleRacpDecoded :=
  if data.length < 2 then .error .tooShort
  else
    let opcode := nthByte data 0
    let operator := nthByte data 1
    let base : BleRacpDecoded :=
      { op_code := ble_op_code_name opcode, operator := operator
        request_op_code := none, response := none, num_records := none }
    if opcode = 6 ∧ 4 ≤ data.length then
      .ok { base with
              request_op_code := some (ble_op_code_name (nthByte data 2))
              response := some (ble_response_code_name (nthByte data 3)) }
    else if opcode = 5 ∧ 4 ≤ data.length then
      .ok { base with num_records := some (u16leT data 2) }
    else .ok base

/-! ## Checked decoders

The same four decoders with every byte access `Option`-instrumented
(`none` = the access would have raised).  The Python sources wrap each
decoder body in `try/except`, so even a raised exception is returned as an
error value rather than propagated; the theorems below show the stronger
fact that the exception path is dead: every access is covered by a length
guard. -/

/-- Checked form of `gm_decode_glucose_measurement`. -/
def gm_decode_glucose_measurement_checked (data : List Nat) :
    Option (Except DecodeError GlucoseMeasurement) :=
  if data.length < 10 then some (.error .tooShort)
  else do
    let flags ← byteAt data 0
    let units : GlucoseUnit := if flags &&& 0x04 != 0 then .mmolL else .mgdl
    let context_info_follows := flags &&& 0x10 != 0
    let seq_num ← u16le data 1
    let year ← u16le data 3
    let month ← byteAt data 5
    let day ← byteAt data 6
    let hour ← byteAt data 7
    let minute ← byteAt data 8
    let second ← byteAt data 9
    let time_offset : Option Int ←
      if hasTimeOffsetField data then do
        let v ← u16le data 10
        pure (some (s16ofU16 v))
      else pure none
    let conc : Option SfloatValue × Option Nat × Option Nat ←
      if gm_hasConcField data then do
        let glucose_raw ← u16le data (offsetAfterTime data)
        let tsl ← byteAt data (offsetAfterTime data + 2)
        pure (some (gm_decode_sfloat glucose_raw),
              some ((tsl >>> 4) &&& 0x0F), some (tsl &&& 0x0F))
      else pure (none, none, none)
    let status : Option Nat ←
      if gm_hasStatusField data then do
        let s ← u16le data (gm_offsetAfterConc data)
        pure (some s)
      else pure none
    pure (.ok
      { sequence_number := seq_num
        year := year
        month := month
        day := day
        hour := hour
        minute := minute
        second := second
        glucose_value := conc.1
        units := units
        sample_type := conc.2.1
        sample_location := conc.2.2
        time_offset_minutes := time_offset
        status := status
        context_follows := context_info_follows })

/-- Checked form of `ble_decode_glucose_measurement`. -/
def ble_decode_glucose_measurement_checked (data : List Nat) :
    Option (Except DecodeError GlucoseMeasurement) :=
  if data.length < 10 then some (.error .tooShort)
  else do
    let flags ← byteAt data 0
    let units : GlucoseUnit := if flags &&& 0x04 != 0 then .mmolL else .mgdl
    let context_info_follows := flags &&& 0x10 != 0
    let seq_num ← u16le data 1
    let year ← u16le data 3
    let month ← byteAt data 5
    let day ← byteAt data 6
    let hour ← byteAt data 7
    let minute ← byteAt data 8
    let second ← byteAt data 9
    let time_offset : Option Int ←
      if hasTimeOffsetField data then do
        let v ← u16le data 10
        pure (some (s16ofU16 v))
      else pure none
    let conc : Option SfloatValue × Option Nat × Option Nat ←
      if ble_hasConcField data then do
        let glucose_raw ← u16le data (offsetAfterTime data)
        let tsl ← byteAt data (offsetAfterTime data + 2)
        pure (some (ble_decode_sfloat glucose_raw),
              some ((tsl >>> 4) &&& 0x0F), some (tsl &&& 0x0F))
      else pure (none, none, none)
    let status : Option Nat ←
      if ble_hasStatusField data then do
        let s ← u16le data (ble_offsetAfterConc data)
        pure (some s)
      else pure none
    pure (.ok
      { sequence_number := seq_num
        year := year
        month := month
        day := day
        hour := hour
        minute := minute
        second := second
        glucose_value := conc.1
        units := units
        sample_type := conc.2.1
        sample_location := conc.2.2
        time_offset_minutes := time_offset
        status := status
        context_follows := context_info_follows })

/-- Checked form of `gm_decode_racp_response`. -/
def gm_decode_racp_response_checked (data : List Nat) :
    Option (Except DecodeError RacpDecoded) :=
  if data.length < 2 then some (.error .tooShort)
  else do
    let opcode ← byteAt data 0
    let operator ← byteAt data 1
    let base : RacpDecoded :=
      { opcode := opcode, operator := operator, request_opcode := none
        response_code := none, response_text := none, num_records := none }
    if opcode = 6 then
      if 4 ≤ data.length then do
        let req ← byteAt data 2
        let code ← byteAt data 3
        pure (.ok { base with
                      request_opcode := some req
                      response_code := some code
                      response_text := some (response_text_of code) })
      else pure (.ok base)
    else if opcode = 5 then
      if 4 ≤ data.length then do
        let n ← u16le data 2
        pure (.ok { base with num_records := some n })
      else pure (.ok base)
    else pure (.ok base)

/-- Checked form of `ble_decode_racp_response`. -/
def ble_decode_racp_response_checked (data : List Nat) :
    Option (Except DecodeError BleRacpDecoded) :=
  if data.length < 2 then some (.error .tooShort)
  else do
    let opcode ← byteAt data 0
    let operator ← byteAt data 1
    let base : BleRacpDecoded :=
      { op_code := ble_op_code_name opcode, operator := operator
        request_op_code := none, response := none, num_records := none }
    if opcode = 6 ∧ 4 ≤ data.length then do
      let req ← byteAt data 2
      let code ← byteAt data 3
      pure (.ok { base with
                    request_op_code := some (ble_op_code_name req)
                    response := some (ble_response_code_name code) })
    else if opcode = 5 ∧ 4 ≤ data.length then do
      let n ← u16le data 2
      pure (.ok { base with num_records := some n })
    else pure (.ok base)

/-! ## The retrieval session (gm_listener.py)

`GlucoseMeterListener` keeps three pieces of mutable session state:
`measurements_received` (a list, appended in arrival order),
`racp_response_received` (set only on a Success or No-Records-Found
completion report) and `total_records` (set by a count report).
`notification_handler` dispatches each notification on the characteristic
UUID.  `connect_and_retrieve_data`, after the subscription phase, writes the
count command `(0x04, 0x01)`, sleeps, writes the report-all command
`(0x01, 0x01)` (returning early if that write fails), and then polls once a
second for up to 30 seconds, stopping early when `racp_response_received` is
set or the client disconnects.  No abort command is ever written. -/

/-- An inbound notification, tagged by which characteristic it arrived on
(the Python handler dispatches on `sender.uuid`). -/
inductive Notification where
  | glucoseMeasurement (data : List Nat)
  | glucoseContext (data : List Nat)
  | racp (data : List Nat)
  | other (data : List Nat)
deriving DecidableEq

/-- The mutable session state of `GlucoseMeterListener`. -/
structure SessionState where
  measurements_received : List GlucoseMeasurement
  racp_response_received : Bool
  total_records : Nat
deriving DecidableEq

/-- State at construction: `[]`, `False`, `0`. -/
def initialSession : SessionState :=
  { measurements_received := [], racp_response_received := false, total_records := 0 }

/-- `GlucoseMeterListener.notification_handler` (gm_listener.py, lines
247–319), restricted to its state effects: a glucose-measurement
notification that decodes without error is appended; a RACP notification
with response text `Success` or `No Records Found` sets
`racp_response_received`; one with a count sets `total_records`; everything
else (context notifications, other response texts, decode errors, unknown
characteristics) only prints. -/
def notification_handler (s : SessionState) (n : Notification) : SessionState :=
  match n with
  | .glucoseMeasurement data =>
    match gm_decode_glucose_measurement data with
    | .ok m => { s with measurements_received := s.measurements_received ++ [m] }
    | .error _ => s
  | .glucoseContext _ => s
  | .racp data =>
    match gm_decode_racp_response data with
    | .ok r =>
      match r.response_text with
      | some RacpResponseText.success => { s with racp_response_received := true }
      | some RacpResponseText.noRecordsFound => { s with racp_response_received := true }
      | some _ => s
      | none =>
        match r.num_records with
        | some n => { s with total_records := n }
        | none => s
    | .error _ => s
  | .other _ => s

/-- A two-byte RACP command `bytearray([opcode, operator])` as written by
`write_racp_command`. -/
structure RacpCommand where
  opcode : Nat
  operator : Nat
deriving DecidableEq

/-- `(RACP_OPCODE_REPORT_NUM_RECORDS, RACP_OPERATOR_ALL_RECORDS)`. -/
def cmdReportNumRecords : RacpCommand := { opcode := 0x04, operator := 0x01 }

/-- `(RACP_OPCODE_REPORT_STORED_RECORDS, RACP_OPERATOR_ALL_RECORDS)`. -/
def cmdReportStoredRecords : RacpCommand := { opcode := 0x01, operator := 0x01 }

/-- `(RACP_OPCODE_ABORT_OPERATION, RACP_OPERATOR_NULL)` — the constant is
defined in gm_listener.py but never written. -/
def cmdAbortOperation : RacpCommand := { opcode := 0x03, operator := 0x00 }

/-- How the wait loop exited: its condition became false (timeout reached or
response received), or the disconnect check broke out of it. -/
inductive LoopExit where
  | condFalse
  | disconnected
deriving DecidableEq

/-- The polling loop of `connect_and_retrieve_data` (gm_listener.py, lines
466–481): `while elapsed < timeout and not self.racp_response_received`,
with a disconnect check at the top of the body and a one-second sleep
(during which the notifications `arrive elapsed` are handled) before
`elapsed` is incremented.  `fuel` is `timeout - elapsed`. -/
def waitLoopAux (connected : Nat → Bool) (arrive : Nat → List Notification) :
    Nat → Nat → SessionState → SessionState × LoopExit
  | 0, _, s => (s, .condFalse)
  | fuel + 1, elapsed, s =>
    if s.racp_response_received then (s, .condFalse)
    else if connected elapsed then
      waitLoopAux connected arrive fuel (elapsed + 1)
        ((arrive elapsed).foldl notification_handler s)
    else (s, .disconnected)

/-- The notifications the wait loop actually handles, in arrival order
(companion to `waitLoopAux`, same recursion). -/
def loopNotifsAux (connected : Nat → Bool) (arrive : Nat → List Notification) :
    Nat → Nat → SessionState → List Notification
  | 0, _, _ => []
  | fuel + 1, elapsed, s =>
    if s.racp_response_received then []
    else if connected elapsed then
      arrive elapsed ++
        loopNotifsAux connected arrive fuel (elapsed + 1)
          ((arrive elapsed).foldl notification_handler s)
    else []

/-- How the retrieval ended, as reported by the summary block of
`connect_and_retrieve_data`: `racp_response_received` set means the device
completed the transfer; otherwise either the disconnect check fired or the
30-second deadline elapsed. -/
inductive SessionOutcome where
  | completed
  | timedOut
  | disconnected
deriving DecidableEq

/-- Classify the final state / loop exit as an outcome. -/
def outcomeOf (s : SessionState) (ex : LoopExit) : SessionOutcome :=
  if s.racp_response_received then .completed
  else
    match ex with
    | .disconnected => .disconnected
    | .condFalse => .timedOut

/-- Result of one retrieval: the RACP commands written (in order), the final
session state, and the outcome (`none` when the report-all write failed and
the function returned before the wait loop). -/
structure RetrievalRun where
  writes : List RacpCommand
  final : SessionState
  outcome : Option SessionOutcome

/-- The retrieval phase of `connect_and_retrieve_data` (gm_listener.py,
lines 438–481), after a successful subscription phase:

* write the count command (its success value is ignored);
* handle the notifications that arrive during the 2-second sleep
  (`countNotifs`, e.g. the count report);
* write the report-all command; if that write fails, return at once;
* run the 30-second wait loop (`arrive t` are the notifications handled
  during second `t`; `connected t` is the liveness check at second `t`).

Both writes are always attempted, in this order; no other RACP write exists
on this path — in particular no abort command. -/
def gm_retrieval (countNotifs : List Notification) (reportAllWriteOk : Bool)
    (connected : Nat → Bool) (arrive : Nat → List Notification) : RetrievalRun :=
  let s1 := countNotifs.foldl notification_handler initialSession
  if reportAllWriteOk then
    let r := waitLoopAux connected arrive 30 0 s1
    { writes := [cmdReportNumRecords, cmdReportStoredRecords]
      final := r.1
      outcome := some (outcomeOf r.1 r.2) }
  else
    { writes := [cmdReportNumRecords, cmdReportStoredRecords]
      final := s1
      outcome := none }

/-- The glucose measurements a list of notifications contributes, in arrival
order: the successfully decoded payloads of the glucose-measurement
notifications among them. -/
def decodedMeasurements (ns : List Notification) : List GlucoseMeasurement :=
  ns.filterMap fun n =>
    match n with
    | .glucoseMeasurement data =>
      match gm_decode_glucose_measurement data with
      | .ok m => some m
      | .error _ => none
    | _ => none

/-! ## Subscription phases -/

/-- The three characteristics the scripts subscribe to. -/
inductive Characteristic where
  | glucoseMeasurement
  | glucoseContext
  | racp
deriving DecidableEq

/-- The subscription phase of `connect_and_retrieve_data` (gm_listener.py,
lines 398–433).  Each `start_notify` call is wrapped in its own
`try/except`: a Glucose Measurement failure prints an error and falls
through; a Context failure prints "optional" and falls through; only a RACP
failure makes the function return (`Cannot proceed`).  Returns whether the
retrieval proceeds, and the subscribed characteristics in order. -/
def gm_subscription_phase (gmOk ctxOk racpOk : Bool) : Bool × List Characteristic :=
  let subscribed :=
    (if gmOk then [Characteristic.glucoseMeasurement] else []) ++
    (if ctxOk then [Characteristic.glucoseContext] else [])
  if racpOk then (true, subscribed ++ [Characteristic.racp])
  else (false, subscribed)

/-- The RACP UUID constant of ble_listener.py, lower-case. -/
def bleRacpUuid : String := "00002a52-0000-1000-8000-00805f9b34fb"

/-- The subscription loop of `connect_and_listen` (ble_listener.py, lines
481–491): every `start_notify` failure is caught and only printed;
`subscribed_count` counts the successes. -/
def ble_subscription_loop (uuids : List String) (ok : String → Bool) : Nat :=
  (uuids.filter ok).length

/-- Whether `connect_and_listen` (ble_listener.py, line 494) goes on to
write the RACP requests: `self.RACP_UUID in [u.lower() for u in
self.subscribe_uuids] and self.request_all_records` — configuration only,
independent of any subscription success or failure. -/
def ble_racp_requests_sent (uuids : List String) (request_all_records : Bool) : Bool :=
  decide (bleRacpUuid ∈ uuids.map String.toLower) && request_all_records

/-- The post-connection phase of `connect_and_listen`: the subscription
success count and whether the RACP requests are written. -/
def ble_connect_phase (uuids : List String) (request_all_records : Bool)
    (ok : String → Bool) : Nat × Bool :=
  (ble_subscription_loop uuids ok, ble_racp_requests_sent uuids request_all_records)

/-! ## Concrete buffers and scenarios used by the theorems -/

/-- The worked example record `06 01 00 E8 07 06 0F 08 1E 00 64 00 10`:
flags 0x06 (concentration flag set, mmol/L), sequence 1, base time
2024-06-15 08:30:00, SFLOAT `0x0064`, type/location byte `0x10`. -/
def sampleRecordBytes : List Nat :=
  [0x06, 0x01, 0x00, 0xE8, 0x07, 0x06, 0x0F, 0x08, 0x1E, 0x00, 0x64, 0x00, 0x10]

/-- An 11-byte buffer whose flags byte (0x02) declares the concentration
field present: 10-byte prefix plus one trailing byte, 2 bytes short of the
13 needed for the declared concentration block. -/
def flaggedLen11Bytes : List Nat :=
  [0x02, 0x01, 0x00, 0xE8, 0x07, 0x06, 0x0F, 0x08, 0x1E, 0x00, 0x00]

/-- A 13-byte buffer whose flags byte (0x04) has the concentration flag
(bit 1) clear, with a well-formed concentration block in bytes 10–12. -/
def concFlagClearBytes : List Nat :=
  [0x04, 0x01, 0x00, 0xE8, 0x07, 0x06, 0x0F, 0x08, 0x1E, 0x00, 0x64, 0x00, 0x10]

/-- A well-formed measurement record like `sampleRecordBytes` but with the
given (single-byte) sequence number. -/
def seqRecordBytes (seq : Nat) : List Nat :=
  [0x06, seq, 0x00, 0xE8, 0x07, 0x06, 0x0F, 0x08, 0x1E, 0x00, 0x64, 0x00, 0x10]

/-- A retrieval on which nothing ever arrives and the device stays
connected: the 30-second deadline elapses. -/
def silentRun : RetrievalRun :=
  gm_retrieval [] true (fun _ => true) (fun _ => [])

/-- A retrieval on which the only event is a completion report with result
code 0x02 (`Op Code Not Supported`) in the first second. -/
def otherCodeRun : RetrievalRun :=
  gm_retrieval [] true (fun _ => true)
    (fun t => if t = 0 then [.racp [0x06, 0x00, 0x01, 0x02]] else [])

/-- The notification timeline of the successful-session scenario: three
measurement records (sequence numbers 1, 2 and again 2) followed by a
Success completion report, all in the first second of the wait loop. -/
def scenarioArrive : Nat → List Notification := fun t =>
  if t = 0 then
    [.glucoseMeasurement (seqRecordBytes 1), .glucoseMeasurement (seqRecordBytes 2),
     .glucoseMeasurement (seqRecordBytes 2), .racp [0x06, 0x00, 0x01, 0x01]]
  else []

/-- The successful-session scenario: a count report for 3 records arrives
after the count command, then `scenarioArrive`. -/
def scenarioRun : RetrievalRun :=
  gm_retrieval [.racp [0x05, 0x00, 0x03, 0x00]] true (fun _ => true) scenarioArrive

/-! ## Helper lemmas -/

theorem byteAt_eq_nthByte (data : List Nat) (i : Nat) (h : i < data.length) :
    byteAt data i = some (nthByte data i) := by
  simp [byteAt, nthByte, List.getD_eq_getElem?_getD, List.get?_eq_getElem?,
        List.getElem?_eq_getElem h]

theorem u16le_eq_u16leT (data : List Nat) (i : Nat) (h : i + 1 < data.length) :
    u16le data i = some (u16leT data i) := by
  simp [u16le, u16leT, byteAt_eq_nthByte data i (by omega), byteAt_eq_nthByte data (i + 1) h]

theorem gm_racp_checked_eq (data : List Nat) :
    gm_decode_racp_response_checked data = some (gm_decode_racp_response data) := by
  unfold gm_decode_racp_response_checked gm_decode_racp_response
  by_cases h2 : data.length < 2
  · simp [h2]
  · simp only [if_neg h2]
    push_neg at h2
    rw [byteAt_eq_nthByte data 0 (by omega), byteAt_eq_nthByte data 1 (by omega)]
    by_cases h6 : nthByte data 0 = 6
    · by_cases h4 : 4 ≤ data.length
      · simp [h6, h4, byteAt_eq_nthByte data 2 (by omega), byteAt_eq_nthByte data 3 (by omega)]
      · simp [h6, h4]
    · by_cases h5 : nthByte data 0 = 5
      · by_cases h4 : 4 ≤ data.length
        · simp [h6, h5, h4, u16le_eq_u16leT data 2 (by omega)]
        · simp [h6, h5, h4]
      · simp [h6, h5]

theorem len_of_hasTimeOffsetField {data : List Nat} (h : hasTimeOffsetField data = true) :
    12 ≤ data.length := by
  simp [hasTimeOffsetField] at h
  exact h.2

theorem len_of_gm_hasConcField {data : List Nat} (h : gm_hasConcField data = true) :
    offsetAfterTime data + 3 ≤ data.length := by
  simpa [gm_hasConcField] using h

theorem len_of_gm_hasStatusField {data : List Nat} (h : gm_hasStatusField data = true) :
    gm_offsetAfterConc data + 2 ≤ data.length := by
  simp [gm_hasStatusField] at h
  exact h.2

theorem gm_glucose_checked_eq (data : List Nat) :
    gm_decode_glucose_measurement_checked data = some (gm_decode_glucose_measurement data) := by
  unfold gm_decode_glucose_measurement_checked gm_decode_glucose_measurement
  by_cases h10 : data.length < 10
  · simp [h10]
  · push_neg at h10
    simp only [if_neg (by omega : ¬ data.length < 10)]
    rw [byteAt_eq_nthByte data 0 (by omega), u16le_eq_u16leT data 1 (by omega),
        u16le_eq_u16leT data 3 (by omega), byteAt_eq_nthByte data 5 (by omega),
        byteAt_eq_nthByte data 6 (by omega), byteAt_eq_nthByte data 7 (by omega),
        byteAt_eq_nthByte data 8 (by omega), byteAt_eq_nthByte data 9 (by omega)]
    by_cases ht : hasTimeOffsetField data
    · have h12 := len_of_hasTimeOffsetField ht
      have hoff : offsetAfterTime data = 12 := by simp [offsetAfterTime, ht]
      by_cases hc : gm_hasConcField data
      · have h15 := len_of_gm_hasConcField hc
        rw [hoff] at h15
        have hoc : gm_offsetAfterConc data = 15 := by simp [gm_offsetAfterConc, hc, hoff]
        by_cases hs : gm_hasStatusField data
        · have h17 := len_of_gm_hasStatusField hs
          rw [hoc] at h17
          simp (disch := omega) [ht, hc, hs, hoff, hoc, u16le_eq_u16leT, byteAt_eq_nthByte]
        · simp (disch := omega) [ht, hc, hs, hoff, hoc, u16le_eq_u16leT, byteAt_eq_nthByte]
      · have hoc : gm_offsetAfterConc data = 12 := by simp [gm_offsetAfterConc, hc, hoff]
        by_cases hs : gm_hasStatusField data
        · have h14 := len_of_gm_hasStatusField hs
          rw [hoc] at h14
          simp (disch := omega) [ht, hc, hs, hoff, hoc, u16le_eq_u16leT, byteAt_eq_nthByte]
        · simp (disch := omega) [ht, hc, hs, hoff, hoc, u16le_eq_u16leT, byteAt_eq_nthByte]
    · have hoff : offsetAfterTime data = 10 := by simp [offsetAfterTime, ht]
      by_cases hc : gm_hasConcField data
      · have h13 := len_of_gm_hasConcField hc
        rw [hoff] at h13
        have hoc : gm_offsetAfterConc data = 13 := by simp [gm_offsetAfterConc, hc, hoff]
        by_cases hs : gm_hasStatusField data
        · have h15 := len_of_gm_hasStatusField hs
          rw [hoc] at h15
          simp (disch := omega) [ht, hc, hs, hoff, hoc, u16le_eq_u16leT, byteAt_eq_nthByte]
        · simp (disch := omega) [ht, hc, hs, hoff, hoc, u16le_eq_u16leT, byteAt_eq_nthByte]
      · have hoc : gm_offsetAfterConc data = 10 := by simp [gm_offsetAfterConc, hc, hoff]
        by_cases hs : gm_hasStatusField data
        · have h12 := len_of_gm_hasStatusField hs
          rw [hoc] at h12
          simp (disch := omega) [ht, hc, hs, hoff, hoc, u16le_eq_u16leT, byteAt_eq_nthByte]
        · simp (disch := omega) [ht, hc, hs, hoff, hoc, u16le_eq_u16leT, byteAt_eq_nthByte]

theorem len_of_ble_hasConcField {data : List Nat} (h : ble_hasConcField data = true) :
    offsetAfterTime data + 3 ≤ data.length := by
  simp [ble_hasConcField] at h
  exact h.2

theorem len_of_ble_hasStatusField {data : List Nat} (h : ble_hasStatusField data = true) :
    ble_offsetAfterConc data + 2 ≤ data.length := by
  simp [ble_hasStatusField] at h
  exact h.2

theorem ble_glucose_checked_eq (data : List Nat) :
    ble_decode_glucose_measurement_checked data = some (ble_decode_glucose_measurement data) := by
  unfold ble_decode_glucose_measurement_checked ble_decode_glucose_measurement
  by_cases h10 : data.length < 10
  · simp [h10]
  · push_neg at h10
    simp only [if_neg (by omega : ¬ data.length < 10)]
    rw [byteAt_eq_nthByte data 0 (by omega), u16le_eq_u16leT data 1 (by omega),
        u16le_eq_u16leT data 3 (by omega), byteAt_eq_nthByte data 5 (by omega),
        byteAt_eq_nthByte data 6 (by omega), byteAt_eq_nthByte data 7 (by omega),
        byteAt_eq_nthByte data 8 (by omega), byteAt_eq_nthByte data 9 (by omega)]
    by_cases ht : hasTimeOffsetField data
    · have h12 := len_of_hasTimeOffsetField ht
      have hoff : offsetAfterTime data = 12 := by simp [offsetAfterTime, ht]
      by_cases hc : ble_hasConcField data
      · have h15 := len_of_ble_hasConcField hc
        rw [hoff] at h15
        have hoc : ble_offsetAfterConc data = 15 := by simp [ble_offsetAfterConc, hc, hoff]
        by_cases hs : ble_hasStatusField data
        · have h17 := len_of_ble_hasStatusField hs
          rw [hoc] at h17
          simp (disch := omega) [ht, hc, hs, hoff, hoc, u16le_eq_u16leT, byteAt_eq_nthByte]
        · simp (disch := omega) [ht, hc, hs, hoff, hoc, u16le_eq_u16leT, byteAt_eq_nthByte]
      · have hoc : ble_offsetAfterConc data = 12 := by simp [ble_offsetAfterConc, hc, hoff]
        by_cases hs : ble_hasStatusField data
        · have h14 := len_of_ble_hasStatusField hs
          rw [hoc] at h14
          simp (disch := omega) [ht, hc, hs, hoff, hoc, u16le_eq_u16leT, byteAt_eq_nthByte]
        · simp (disch := omega) [ht, hc, hs, hoff, hoc, u16le_eq_u16leT, byteAt_eq_nthByte]
    · have hoff : offsetAfterTime data = 10 := by simp [offsetAfterTime, ht]
      by_cases hc : ble_hasConcField data
      · have h13 := len_of_ble_hasConcField hc
        rw [hoff] at h13
        have hoc : ble_offsetAfterConc data = 13 := by simp [ble_offsetAfterConc, hc, hoff]
        by_cases hs : ble_hasStatusField data
        · have h15 := len_of_ble_hasStatusField hs
          rw [hoc] at h15
          simp (disch := omega) [ht, hc, hs, hoff, hoc, u16le_eq_u16leT, byteAt_eq_nthByte]
        · simp (disch := omega) [ht, hc, hs, hoff, hoc, u16le_eq_u16leT, byteAt_eq_nthByte]
      · have hoc : ble_offsetAfterConc data = 10 := by simp [ble_offsetAfterConc, hc, hoff]
        by_cases hs : ble_hasStatusField data
        · have h12 := len_of_ble_hasStatusField hs
          rw [hoc] at h12
          simp (disch := omega) [ht, hc, hs, hoff, hoc, u16le_eq_u16leT, byteAt_eq_nthByte]
        · simp (disch := omega) [ht, hc, hs, hoff, hoc, u16le_eq_u16leT, byteAt_eq_nthByte]

theorem ble_racp_checked_eq (data : List Nat) :
    ble_decode_racp_response_checked data = some (ble_decode_racp_response data) := by
  unfold ble_decode_racp_response_checked ble_decode_racp_response
  by_cases h2 : data.length < 2
  · simp [h2]
  · simp only [if_neg h2]
    push_neg at h2
    rw [byteAt_eq_nthByte data 0 (by omega), byteAt_eq_nthByte data 1 (by omega)]
    by_cases h6 : nthByte data 0 = 6 ∧ 4 ≤ data.length
    · simp (disch := omega) [h6, byteAt_eq_nthByte]
    · by_cases h5 : nthByte data 0 = 5 ∧ 4 ≤ data.length
      · simp (disch := omega) [h6, h5, u16le_eq_u16leT]
      · simp [h6, h5]

theorem decodedMeasurements_cons (n : Notification) (ns : List Notification) :
    decodedMeasurements (n :: ns) = decodedMeasurements [n] ++ decodedMeasurements ns := by
  simp only [decodedMeasurements, List.filterMap_cons, List.filterMap_nil]
  cases n with
  | glucoseMeasurement data => cases h : gm_decode_glucose_measurement data <;> simp [h]
  | glucoseContext data => simp
  | racp data => simp
  | other data => simp

theorem handler_measurements (s : SessionState) (n : Notification) :
    (notification_handler s n).measurements_received
      = s.measurements_received ++ decodedMeasurements [n] := by
  cases n with
  | glucoseMeasurement data =>
    simp only [notification_handler, decodedMeasurements, List.filterMap]
    cases h : gm_decode_glucose_measurement data <;> simp [h]
  | glucoseContext data => simp [notification_handler, decodedMeasurements]
  | racp data =>
    simp only [notification_handler, decodedMeasurements, List.filterMap]
    cases h : gm_decode_racp_response data with
    | error e => simp
    | ok r =>
      cases ht : r.response_text with
      | none => cases hn : r.num_records <;> simp [h, ht, hn]
      | some t => cases t <;> simp [h, ht]
  | other data => simp [notification_handler, decodedMeasurements]

theorem foldl_handler_measurements (ns : List Notification) (s : SessionState) :
    (ns.foldl notification_handler s).measurements_received
      = s.measurements_received ++ decodedMeasurements ns := by
  induction ns generalizing s with
  | nil => simp [decodedMeasurements]
  | cons n ns ih =>
    rw [List.foldl_cons, ih, handler_measurements, List.append_assoc,
        ← decodedMeasurements_cons]

theorem waitLoop_measurements (connected : Nat → Bool) (arrive : Nat → List Notification)
    (fuel elapsed : Nat) (s : SessionState) :
    ((waitLoopAux connected arrive fuel elapsed s).1).measurements_received
      = s.measurements_received
        ++ decodedMeasurements (loopNotifsAux connected arrive fuel elapsed s) := by
  induction fuel generalizing elapsed s with
  | zero => simp [waitLoopAux, loopNotifsAux, decodedMeasurements]
  | succ fuel ih =>
    simp only [waitLoopAux, loopNotifsAux]
    cases hr : s.racp_response_received with
    | true => simp [decodedMeasurements]
    | false =>
      simp only [Bool.false_eq_true, if_false]
      cases hc : connected elapsed with
      | false => simp [decodedMeasurements]
      | true =>
        simp only [if_true]
        rw [ih, foldl_handler_measurements]
        simp only [decodedMeasurements, List.filterMap_append, List.append_assoc]


/-! ## Claims -/

/-- Claim C1, counterexample.  The claim says decode fails with `TooShort`
whenever the buffer is too short for a field its flags declare present (in
particular an 11-byte buffer with the concentration flag set), and that a
field whose flag bit is clear is never decoded.  In fact both decoders
accept the 11-byte flagged buffer and silently omit the concentration, and
the gm_listener.py decoder decodes a concentration from a 13-byte buffer
whose concentration flag bit is clear. -/
theorem C1_counterexample :
    gm_decode_glucose_measurement flaggedLen11Bytes ≠ .error .tooShort ∧
    ble_decode_glucose_measurement flaggedLen11Bytes ≠ .error .tooShort ∧
    (∃ m, gm_decode_glucose_measurement flaggedLen11Bytes = .ok m ∧ m.glucose_value = none) ∧
    (∃ m, ble_decode_glucose_measurement flaggedLen11Bytes = .ok m ∧ m.glucose_value = none) ∧
    (∃ m, gm_decode_glucose_measurement concFlagClearBytes = .ok m ∧
      m.glucose_value = some (SfloatValue.Number 100 0)) :=
  ⟨by decide, by decide, ⟨_, rfl, by decide⟩, ⟨_, rfl, by decide⟩, ⟨_, rfl, by decide⟩⟩

/-- Claim C1, amended.  Both decoders fail with `TooShort` exactly when the
buffer is shorter than the 10-byte fixed prefix.  On longer buffers they
always succeed; presence of each optional field is decided jointly by the
flags byte and the remaining buffer length (a flagged field that does not
fit is silently omitted, never an error), and in the gm_listener.py decoder
the concentration block is decoded from remaining length alone, ignoring
flag bit 1. -/
theorem C1_flags_and_length_govern_fields (data : List Nat) :
    (gm_decode_glucose_measurement data = .error .tooShort ↔ data.length < 10) ∧
    (ble_decode_glucose_measurement data = .error .tooShort ↔ data.length < 10) ∧
    (10 ≤ data.length →
      ∃ m, gm_decode_glucose_measurement data = .ok m ∧
        m.time_offset_minutes.isSome = hasTimeOffsetField data ∧
        m.glucose_value.isSome = gm_hasConcField data ∧
        m.sample_type.isSome = gm_hasConcField data ∧
        m.status.isSome = gm_hasStatusField data) ∧
    (10 ≤ data.length →
      ∃ m, ble_decode_glucose_measurement data = .ok m ∧
        m.time_offset_minutes.isSome = hasTimeOffsetField data ∧
        m.glucose_value.isSome = ble_hasConcField data ∧
        m.sample_type.isSome = ble_hasConcField data ∧
        m.status.isSome = ble_hasStatusField data) := by
  refine ⟨?_, ?_, ?_, ?_⟩
  · unfold gm_decode_glucose_measurement
    by_cases h : data.length < 10 <;> simp [h]
  · unfold ble_decode_glucose_measurement
    by_cases h : data.length < 10 <;> simp [h]
  · intro h10
    unfold gm_decode_glucose_measurement
    rw [if_neg (by omega)]
    refine ⟨_, rfl, ?_, ?_, ?_, ?_⟩ <;>
      cases ht : hasTimeOffsetField data <;> cases hc : gm_hasConcField data <;>
        cases hs : gm_hasStatusField data <;> simp [ht, hc, hs]
  · intro h10
    unfold ble_decode_glucose_measurement
    rw [if_neg (by omega)]
    refine ⟨_, rfl, ?_, ?_, ?_, ?_⟩ <;>
      cases ht : hasTimeOffsetField data <;> cases hc : ble_hasConcField data <;>
        cases hs : ble_hasStatusField data <;> simp [ht, hc, hs]

/-- Witness for C1: the amended statement evaluated on the worked example
buffer (length 13 ≥ 10). -/
theorem C1_witness :
    (gm_decode_glucose_measurement sampleRecordBytes = .error .tooShort ↔
      sampleRecordBytes.length < 10) ∧
    (∃ m, gm_decode_glucose_measurement sampleRecordBytes = .ok m ∧
      m.time_offset_minutes.isSome = hasTimeOffsetField sampleRecordBytes ∧
      m.glucose_value.isSome = gm_hasConcField sampleRecordBytes ∧
      m.sample_type.isSome = gm_hasConcField sampleRecordBytes ∧
      m.status.isSome = gm_hasStatusField sampleRecordBytes) ∧
    (∃ m, ble_decode_glucose_measurement sampleRecordBytes = .ok m ∧
      m.time_offset_minutes.isSome = hasTimeOffsetField sampleRecordBytes ∧
      m.glucose_value.isSome = ble_hasConcField sampleRecordBytes ∧
      m.sample_type.isSome = ble_hasConcField sampleRecordBytes ∧
      m.status.isSome = ble_hasStatusField sampleRecordBytes) := by
  have h := C1_flags_and_length_govern_fields sampleRecordBytes
  exact ⟨h.1, h.2.2.1 (by decide), h.2.2.2 (by decide)⟩


/-- Claim C2, counterexample.  The claim covers both cited SFLOAT decode
sites, but the ble_listener.py decode has no reserved-value handling:
`0x07FF` decodes there by the general rule to `Number 2047` (and `0x0800`
to `Number (-2048)`), not to the NaN / NRes sentinels. -/
theorem C2_counterexample :
    ble_decode_sfloat 0x07FF = SfloatValue.Number 2047 0 ∧
    ble_decode_sfloat 0x07FF ≠ SfloatValue.NaN ∧
    ble_decode_sfloat 0x0800 = SfloatValue.Number (-2048) 0 ∧
    ble_decode_sfloat 0x0800 ≠ SfloatValue.NRes := by
  refine ⟨by decide, by decide, by decide, by decide⟩

/-- Claim C2, amended.  In the gm_listener.py decode the five reserved raw
values map to their sentinels before general decoding, every other raw
value decodes by sign-extending the 12-bit mantissa (subtract 0x1000 when
≥ 0x0800) and the 4-bit exponent (subtract 16 when ≥ 8), and
`decode(0x0064) = Number(100)`; the ble_listener.py decode applies the
general rule to every raw value, reserved ones included.  Both are total. -/
theorem C2_sfloat_decoding :
    gm_decode_sfloat 0x07FF = SfloatValue.NaN ∧
    gm_decode_sfloat 0x0800 = SfloatValue.NRes ∧
    gm_decode_sfloat 0x07FE = SfloatValue.PlusInfinity ∧
    gm_decode_sfloat 0x0802 = SfloatValue.MinusInfinity ∧
    gm_decode_sfloat 0x0801 = SfloatValue.Reserved ∧
    gm_decode_sfloat 0x0064 = SfloatValue.Number 100 0 ∧
    (∀ raw : Nat, raw ≠ 0x07FF → raw ≠ 0x0800 → raw ≠ 0x07FE → raw ≠ 0x0802 →
      raw ≠ 0x0801 → gm_decode_sfloat raw = sfloat_core raw) ∧
    (∀ raw : Nat, ble_decode_sfloat raw = sfloat_core raw) ∧
    (∀ raw : Nat,
      sfloat_core raw =
        SfloatValue.Number
          (if 0x0800 ≤ raw &&& 0x0FFF then ((raw &&& 0x0FFF : Nat) : Int) - 0x1000
            else ((raw &&& 0x0FFF : Nat) : Int))
          (if 0x08 ≤ (raw >>> 12) &&& 0x0F then (((raw >>> 12) &&& 0x0F : Nat) : Int) - 0x10
            else (((raw >>> 12) &&& 0x0F : Nat) : Int))) := by
  refine ⟨by decide, by decide, by decide, by decide, by decide, by decide, ?_, ?_, ?_⟩
  · intro raw h1 h2 h3 h4 h5
    simp [gm_decode_sfloat, h1, h2, h3, h4, h5]
  · intro raw
    rfl
  · intro raw
    rfl

/-- Witness for C2: the general-decode conjuncts evaluated at raw value
`0x0064`, which is none of the reserved values. -/
theorem C2_witness :
    gm_decode_sfloat 0x0064 = sfloat_core 0x0064 ∧
    ble_decode_sfloat 0x0064 = sfloat_core 0x0064 := by
  have h := C2_sfloat_decoding
  exact ⟨h.2.2.2.2.2.2.1 0x0064 (by decide) (by decide) (by decide) (by decide) (by decide),
         h.2.2.2.2.2.2.2.1 0x0064⟩

/-- Claim C3, confirmed.  RACP decode, in both files: a buffer shorter
than 2 bytes fails `TooShort`; length ≥ 4 with opcode 5 yields the count
report with the little-endian count at offset 2; length ≥ 4 with opcode 6
yields the completion report with the requested opcode at offset 2 and the
result byte at offset 3 mapped through the named dictionary (unmapped bytes
to `unknown` in gm_listener.py, the raw byte kept in `response_code`, and
to `unknownCode` carrying the byte in ble_listener.py); the worked examples
`05 00 03 00`, `06 00 01 01` and `06 00 04 06` decode accordingly in both
files. -/
theorem C3_racp_decoding :
    (∀ data : List Nat, data.length < 2 → gm_decode_racp_response data = .error .tooShort) ∧
    (∀ data : List Nat, 4 ≤ data.length → nthByte data 0 = 5 →
      gm_decode_racp_response data = .ok
        { opcode := 5, operator := nthByte data 1, request_opcode := none,
          response_code := none, response_text := none,
          num_records := some (u16leT data 2) }) ∧
    (∀ data : List Nat, 4 ≤ data.length → nthByte data 0 = 6 →
      gm_decode_racp_response data = .ok
        { opcode := 6, operator := nthByte data 1, request_opcode := some (nthByte data 2),
          response_code := some (nthByte data 3),
          response_text := some (response_text_of (nthByte data 3)), num_records := none }) ∧
    (∀ code : Nat, code = 0 ∨ 10 ≤ code → response_text_of code = .unknown) ∧
    gm_decode_racp_response [0x05, 0x00, 0x03, 0x00] = .ok
      { opcode := 5, operator := 0, request_opcode := none, response_code := none,
        response_text := none, num_records := some 3 } ∧
    gm_decode_racp_response [0x06, 0x00, 0x01, 0x01] = .ok
      { opcode := 6, operator := 0, request_opcode := some 1, response_code := some 1,
        response_text := some .success, num_records := none } ∧
    gm_decode_racp_response [0x06, 0x00, 0x04, 0x06] = .ok
      { opcode := 6, operator := 0, request_opcode := some 4, response_code := some 6,
        response_text := some .noRecordsFound, num_records := none } ∧
    (∀ data : List Nat, data.length < 2 → ble_decode_racp_response data = .error .tooShort) ∧
    (∀ data : List Nat, 4 ≤ data.length → nthByte data 0 = 5 →
      ble_decode_racp_response data = .ok
        { op_code := BleOpCodeName.numberOfStoredRecordsResponse, operator := nthByte data 1,
          request_op_code := none, response := none, num_records := some (u16leT data 2) }) ∧
    (∀ data : List Nat, 4 ≤ data.length → nthByte data 0 = 6 →
      ble_decode_racp_response data = .ok
        { op_code := BleOpCodeName.responseCode, operator := nthByte data 1,
          request_op_code := some (ble_op_code_name (nthByte data 2)),
          response := some (ble_response_code_name (nthByte data 3)), num_records := none }) ∧
    (∀ code : Nat, code = 0 ∨ 10 ≤ code →
      ble_response_code_name code = .unknownCode code) ∧
    ble_decode_racp_response [0x05, 0x00, 0x03, 0x00] = .ok
      { op_code := .numberOfStoredRecordsResponse, operator := 0, request_op_code := none,
        response := none, num_records := some 3 } ∧
    ble_decode_racp_response [0x06, 0x00, 0x01, 0x01] = .ok
      { op_code := .responseCode, operator := 0, request_op_code := some .reportStoredRecords,
        response := some .success, num_records := none } ∧
    ble_decode_racp_response [0x06, 0x00, 0x04, 0x06] = .ok
      { op_code := .responseCode, operator := 0,
        request_op_code := some .reportNumberOfStoredRecords,
        response := some .noRecordsFound, num_records := none } := by
  refine ⟨?_, ?_, ?_, ?_, by decide, by decide, by decide,
          ?_, ?_, ?_, ?_, by decide, by decide, by decide⟩
  · intro data h
    simp [gm_decode_racp_response, h]
  · intro data h4 h5
    unfold gm_decode_racp_response
    rw [if_neg (by omega)]
    simp [h5, h4]
  · intro data h4 h6
    unfold gm_decode_racp_response
    rw [if_neg (by omega)]
    simp [h6, h4]
  · intro code h
    have h1 : code ≠ 1 := by omega
    have h2 : code ≠ 2 := by omega
    have h3 : code ≠ 3 := by omega
    have h4 : code ≠ 4 := by omega
    have h5 : code ≠ 5 := by omega
    have h6 : code ≠ 6 := by omega
    have h7 : code ≠ 7 := by omega
    have h8 : code ≠ 8 := by omega
    have h9 : code ≠ 9 := by omega
    simp [response_text_of, h1, h2, h3, h4, h5, h6, h7, h8, h9]
  · intro data h
    simp [ble_decode_racp_response, h]
  · intro data h4 h5
    unfold ble_decode_racp_response
    rw [if_neg (by omega)]
    simp [h5, h4, ble_op_code_name]
  · intro data h4 h6
    unfold ble_decode_racp_response
    rw [if_neg (by omega)]
    simp [h6, h4, ble_op_code_name]
  · intro code h
    have h1 : code ≠ 1 := by omega
    have h2 : code ≠ 2 := by omega
    have h3 : code ≠ 3 := by omega
    have h4 : code ≠ 4 := by omega
    have h5 : code ≠ 5 := by omega
    have h6 : code ≠ 6 := by omega
    have h7 : code ≠ 7 := by omega
    have h8 : code ≠ 8 := by omega
    have h9 : code ≠ 9 := by omega
    simp [ble_response_code_name, h1, h2, h3, h4, h5, h6, h7, h8, h9]

/-- Witness for C3: the universally quantified conjuncts of both files
evaluated on the empty buffer, the worked example buffers, and result
byte 10. -/
theorem C3_witness :
    gm_decode_racp_response [] = .error .tooShort ∧
    gm_decode_racp_response [0x05, 0x00, 0x03, 0x00] = .ok
      { opcode := 5, operator := nthByte [0x05, 0x00, 0x03, 0x00] 1, request_opcode := none,
        response_code := none, response_text := none,
        num_records := some (u16leT [0x05, 0x00, 0x03, 0x00] 2) } ∧
    gm_decode_racp_response [0x06, 0x00, 0x04, 0x06] = .ok
      { opcode := 6, operator := nthByte [0x06, 0x00, 0x04, 0x06] 1,
        request_opcode := some (nthByte [0x06, 0x00, 0x04, 0x06] 2),
        response_code := some (nthByte [0x06, 0x00, 0x04, 0x06] 3),
        response_text := some (response_text_of (nthByte [0x06, 0x00, 0x04, 0x06] 3)),
        num_records := none } ∧
    response_text_of 10 = .unknown ∧
    ble_decode_racp_response [] = .error .tooShort ∧
    ble_decode_racp_response [0x05, 0x00, 0x03, 0x00] = .ok
      { op_code := .numberOfStoredRecordsResponse,
        operator := nthByte [0x05, 0x00, 0x03, 0x00] 1, request_op_code := none,
        response := none, num_records := some (u16leT [0x05, 0x00, 0x03, 0x00] 2) } ∧
    ble_decode_racp_response [0x06, 0x00, 0x04, 0x06] = .ok
      { op_code := .responseCode, operator := nthByte [0x06, 0x00, 0x04, 0x06] 1,
        request_op_code := some (ble_op_code_name (nthByte [0x06, 0x00, 0x04, 0x06] 2)),
        response := some (ble_response_code_name (nthByte [0x06, 0x00, 0x04, 0x06] 3)),
        num_records := none } ∧
    ble_response_code_name 10 = .unknownCode 10 := by
  have h := C3_racp_decoding
  obtain ⟨c1, c2, c3, c4, _, _, _, c8, c9, c10, c11, _, _, _⟩ := h
  exact ⟨c1 [] (by decide), c2 [0x05, 0x00, 0x03, 0x00] (by decide) (by decide),
         c3 [0x06, 0x00, 0x04, 0x06] (by decide) (by decide),
         c4 10 (Or.inr (by decide)),
         c8 [] (by decide), c9 [0x05, 0x00, 0x03, 0x00] (by decide) (by decide),
         c10 [0x06, 0x00, 0x04, 0x06] (by decide) (by decide),
         c11 10 (Or.inr (by decide))⟩

/-- Claim C9, confirmed.  Any buffer of length ≥ 2 whose first byte is
neither 5 nor 6 decodes, in both files, to the bare opcode/operator report
(no failure; in ble_listener.py the opcode is rendered through the name
dictionary, unknown bytes surfaced as `unknownOp`). -/
theorem C9_unrecognized_surfaced (data : List Nat) (h2 : 2 ≤ data.length)
    (h5 : nthByte data 0 ≠ 5) (h6 : nthByte data 0 ≠ 6) :
    gm_decode_racp_response data = .ok
      { opcode := nthByte data 0, operator := nthByte data 1, request_opcode := none,
        response_code := none, response_text := none, num_records := none } ∧
    ble_decode_racp_response data = .ok
      { op_code := ble_op_code_name (nthByte data 0), operator := nthByte data 1,
        request_op_code := none, response := none, num_records := none } := by
  constructor
  · unfold gm_decode_racp_response
    rw [if_neg (by omega)]
    simp [h5, h6]
  · unfold ble_decode_racp_response
    rw [if_neg (by omega)]
    simp [h5, h6]

/-- Witness for C9: the buffer `07 02` (abort-operation opcode echoed by a
device, say) decodes to the bare report in both files. -/
theorem C9_witness :
    gm_decode_racp_response [0x07, 0x02] = .ok
      { opcode := 7, operator := 2, request_opcode := none,
        response_code := none, response_text := none, num_records := none } ∧
    ble_decode_racp_response [0x07, 0x02] = .ok
      { op_code := .unknownOp 7, operator := 2,
        request_op_code := none, response := none, num_records := none } :=
  C9_unrecognized_surfaced [0x07, 0x02] (by decide) (by decide) (by decide)

/-- Claim C10, confirmed.  On every byte buffer — empty, truncated or
arbitrary — each of the four decoders returns a value (a decoded record or
a too-short report): the `Option`-instrumented decoders, in which any
out-of-range byte access would surface as `none` (a raised exception),
always return `some` of the total decoders' result. -/
theorem C10_decoders_never_raise (data : List Nat) :
    gm_decode_glucose_measurement_checked data = some (gm_decode_glucose_measurement data) ∧
    ble_decode_glucose_measurement_checked data = some (ble_decode_glucose_measurement data) ∧
    gm_decode_racp_response_checked data = some (gm_decode_racp_response data) ∧
    ble_decode_racp_response_checked data = some (ble_decode_racp_response data) :=
  ⟨gm_glucose_checked_eq data, ble_glucose_checked_eq data,
   gm_racp_checked_eq data, ble_racp_checked_eq data⟩


/-- Claim C4, counterexample.  The claim says an elapsed deadline triggers
exactly one `AbortOperation/Null` RACP write.  On a retrieval that times
out (nothing arrives, device stays connected for the full 30 seconds) the
writes are exactly the count command and the report-all command: the abort
command is written zero times, not once — gm_listener.py never writes it. -/
theorem C4_counterexample :
    silentRun.outcome = some SessionOutcome.timedOut ∧
    silentRun.writes = [cmdReportNumRecords, cmdReportStoredRecords] ∧
    silentRun.writes.count cmdAbortOperation = 0 := by
  refine ⟨by decide, by decide, by decide⟩

/-- Claim C4, amended.  On every retrieval the attempted RACP writes are
exactly the count command followed by the report-all command — never an
abort write — and when the deadline elapses before completion the session
ends as `timedOut` carrying every measurement accumulated so far: the
successfully decoded measurement notifications handled before and during
the wait loop, in arrival order. -/
theorem C4_timeout_no_abort (countNotifs : List Notification) (reportAllWriteOk : Bool)
    (connected : Nat → Bool) (arrive : Nat → List Notification) :
    (gm_retrieval countNotifs reportAllWriteOk connected arrive).writes
      = [cmdReportNumRecords, cmdReportStoredRecords] ∧
    cmdAbortOperation ∉ (gm_retrieval countNotifs reportAllWriteOk connected arrive).writes ∧
    ((gm_retrieval countNotifs reportAllWriteOk connected arrive).outcome
        = some SessionOutcome.timedOut →
      (gm_retrieval countNotifs reportAllWriteOk connected arrive).final.measurements_received
        = decodedMeasurements
            (countNotifs ++ loopNotifsAux connected arrive 30 0
              (countNotifs.foldl notification_handler initialSession))) := by
  refine ⟨?_, ?_, ?_⟩
  · cases reportAllWriteOk <;> simp [gm_retrieval]
  · cases reportAllWriteOk <;> simp [gm_retrieval, cmdAbortOperation,
      cmdReportNumRecords, cmdReportStoredRecords]
  · intro hout
    cases reportAllWriteOk with
    | false => simp [gm_retrieval] at hout
    | true =>
      simp only [gm_retrieval, if_true]
      rw [waitLoop_measurements, foldl_handler_measurements]
      simp [initialSession, decodedMeasurements, List.filterMap_append]

/-- Witness for C4: the amended statement evaluated on the silent retrieval
(which does reach the deadline). -/
theorem C4_witness :
    (gm_retrieval [] true (fun _ => true) (fun _ => [])).writes
      = [cmdReportNumRecords, cmdReportStoredRecords] ∧
    (gm_retrieval [] true (fun _ => true) (fun _ => [])).final.measurements_received
      = decodedMeasurements
          (([] : List Notification) ++ loopNotifsAux (fun _ => true) (fun _ => []) 30 0
            (([] : List Notification).foldl notification_handler initialSession)) := by
  have h := C4_timeout_no_abort [] true (fun _ => true) (fun _ => [])
  exact ⟨h.1, h.2.2 (by decide)⟩

/-- Claim C5, counterexample.  The claim says a failed Glucose Measurement
subscription is fatal.  In gm_listener.py it is not: with the Glucose
Measurement subscription failing and the other two succeeding, the
subscription phase still proceeds to the RACP commands (only Context and
RACP end up subscribed). -/
theorem C5_counterexample :
    (gm_subscription_phase false true true).1 = true ∧
    (gm_subscription_phase false true true).2
      = [Characteristic.glucoseContext, Characteristic.racp] := by
  refine ⟨by decide, by decide⟩

/-- Claim C5, amended.  In gm_listener.py only a failed RACP subscription
is fatal: the retrieval proceeds exactly when the RACP subscription
succeeded, whatever happened to the Glucose Measurement and Context
subscriptions.  In ble_listener.py no subscription failure is fatal at all:
whether the RACP requests are written depends only on the configuration,
not on any subscription outcome. -/
theorem C5_only_racp_fatal :
    (∀ gmOk ctxOk racpOk : Bool, (gm_subscription_phase gmOk ctxOk racpOk).1 = racpOk) ∧
    (∀ (uuids : List String) (request_all_records : Bool) (ok ok' : String → Bool),
      (ble_connect_phase uuids request_all_records ok).2
        = (ble_connect_phase uuids request_all_records ok').2) := by
  constructor
  · intro gmOk ctxOk racpOk
    cases racpOk <;> simp [gm_subscription_phase]
  · intro uuids request_all_records ok ok'
    rfl

/-- Claim C6, counterexample.  The claim says a completion report with a
result code other than Success / No Records Found drives the session to a
`Failed` state instead of leaving it waiting for the deadline.  In fact the
notification handler leaves the session state unchanged on such a report
(here: result code 0x02, Op Code Not Supported), and a retrieval whose only
event is that report runs the full 30 seconds and ends `timedOut`. -/
theorem C6_counterexample :
    notification_handler initialSession (Notification.racp [0x06, 0x00, 0x01, 0x02])
      = initialSession ∧
    otherCodeRun.outcome = some SessionOutcome.timedOut := by
  refine ⟨by decide, by decide⟩

/-- Claim C6, amended.  A RACP completion report whose result text is
neither `Success` nor `No Records Found` leaves the session state exactly
as it was — `racp_response_received` stays clear, so the wait loop keeps
waiting until its deadline (gm_listener.py has no failed state). -/
theorem C6_other_result_code_ignored (s : SessionState) (data : List Nat)
    (r : RacpDecoded) (t : RacpResponseText)
    (hdec : gm_decode_racp_response data = .ok r)
    (htext : r.response_text = some t)
    (hts : t ≠ RacpResponseText.success)
    (htn : t ≠ RacpResponseText.noRecordsFound) :
    notification_handler s (Notification.racp data) = s := by
  cases t
  case success => exact absurd rfl hts
  case noRecordsFound => exact absurd rfl htn
  all_goals simp [notification_handler, hdec, htext]

/-- Witness for C6: a completion report carrying result code 3 (Invalid
Operator) leaves the freshly constructed session unchanged. -/
theorem C6_witness :
    notification_handler initialSession (Notification.racp [0x06, 0x00, 0x01, 0x03])
      = initialSession :=
  C6_other_result_code_ignored initialSession [0x06, 0x00, 0x01, 0x03]
    { opcode := 6, operator := 0, request_opcode := some 1, response_code := some 3,
      response_text := some .invalidOperator, num_records := none }
    RacpResponseText.invalidOperator (by decide) (by decide) (by decide) (by decide)

/-- Claim C7, confirmed.  In the scenario — count command written, count
report for 3 records received, report-all command written, three
measurement notifications received (sequence numbers 1, 2, 2), then a
Success completion report — the session ends `completed` with exactly 3
accumulated measurements, appended in arrival order with no deduplication
(the duplicate sequence number 2 is kept twice); and on every retrieval the
count command write precedes the report-all command write (the writes list
is always exactly that pair, in that order). -/
theorem C7_successful_session :
    scenarioRun.outcome = some SessionOutcome.completed ∧
    scenarioRun.final.measurements_received.length = 3 ∧
    scenarioRun.final.measurements_received.map (fun m => m.sequence_number) = [1, 2, 2] ∧
    scenarioRun.final.total_records = 3 ∧
    scenarioRun.final.measurements_received
      = decodedMeasurements
          [Notification.glucoseMeasurement (seqRecordBytes 1),
           Notification.glucoseMeasurement (seqRecordBytes 2),
           Notification.glucoseMeasurement (seqRecordBytes 2)] ∧
    (∀ (countNotifs : List Notification) (reportAllWriteOk : Bool)
        (connected : Nat → Bool) (arrive : Nat → List Notification),
      (gm_retrieval countNotifs reportAllWriteOk connected arrive).writes
        = [cmdReportNumRecords, cmdReportStoredRecords]) := by
  refine ⟨by decide, by decide, by decide, by decide, by decide, ?_⟩
  intro countNotifs reportAllWriteOk connected arrive
  cases reportAllWriteOk <;> simp [gm_retrieval]

/-- Claim C8, confirmed.  The buffer `06 01 00 E8 07 06 0F 08 1E 00 64 00
10` decodes (in both files) to sequence number 1, base time 2024-06-15
08:30:00, concentration `Number 100` (SFLOAT `0x0064`, exponent 0) in
mmol/L, sample type 1, sample location 0, with the time offset and status
fields unset. -/
theorem C8_example_record_decode :
    gm_decode_glucose_measurement sampleRecordBytes = .ok
      { sequence_number := 1, year := 2024, month := 6, day := 15, hour := 8,
        minute := 30, second := 0, glucose_value := some (SfloatValue.Number 100 0),
        units := GlucoseUnit.mmolL, sample_type := some 1, sample_location := some 0,
        time_offset_minutes := none, status := none, context_follows := false } ∧
    ble_decode_glucose_measurement sampleRecordBytes = .ok
      { sequence_number := 1, year := 2024, month := 6, day := 15, hour := 8,
        minute := 30, second := 0, glucose_value := some (SfloatValue.Number 100 0),
        units := GlucoseUnit.mmolL, sample_type := some 1, sample_location := some 0,
        time_offset_minutes := none, status := none, context_follows := false } := by
  refine ⟨by decide, by decide⟩

end Accuchek
